import Mathlib

/-!
Shallow embedding of the transit-information backend (routes, stops, route
recommendation, live-location simulation, incident reports).

The embedding follows the TypeScript source closely:
* numbers are modelled as real numbers `ℝ` (timestamps as `ℤ`);
* `Math.atan2 y x` is modelled as the argument of the complex number `x + y i`;
* `Math.round x` is modelled as `⌊x + 0.5⌋` (this is exactly what `Math.round`
  computes for every real argument);
* `Array.prototype.reduce` with no initial value is modelled as a function into
  `Except CoreError _`: on an empty array it raises a `TypeError`, which is
  modelled as the `CoreError.typeError` constructor;
* out-of-range array indexing (`routes[k]` with `k ≥ routes.length`), which
  yields `undefined` in JavaScript, is modelled as `Option` via `jsIndex`;
* the random draws (`Math.random()` results and the array indices derived from
  them) are passed as explicit parameters.

The error constructors `emptyIndex`, `emptyCatalog` and `invalidKind` come from
the specification's error taxonomy; they are present in `CoreError` so that
statements comparing the code's actual failure values with the specified ones
can be written down.  The code itself only ever produces `typeError`.
-/

/-- The `Location` interface: `{ lat: number, lon: number }`. -/
structure Location where
  lat : ℝ
  lon : ℝ

/-- The `Stop` interface. -/
structure Stop where
  stop_id : String
  stop_name : String
  stop_lat : ℝ
  stop_lon : ℝ

/-- The `Route` interface. -/
structure Route where
  route_id : String
  route_short_name : String
  route_long_name : String
  route_color : String

/-- The `Report` interface.  The TypeScript `type` field is declared as the
union `'TRAFFIC' | 'ACCIDENT' | 'OTHER'`, but that annotation is erased at
runtime and no runtime check exists, so the runtime value is modelled as an
arbitrary `String`. -/
structure Report where
  id : String
  type : String
  location : Location
  description : String
  timestamp : ℤ

/-- Error universe.  `typeError` is what the JavaScript runtime actually
raises; `emptyIndex`, `emptyCatalog` and `invalidKind` are the error values
named by the specification (the code never produces them, but they are needed
to state comparisons against the spec). -/
inductive CoreError where
  | typeError (msg : String) : CoreError
  | emptyIndex : CoreError
  | emptyCatalog : CoreError
  | invalidKind : CoreError

/-- The message of the `TypeError` raised by `Array.prototype.reduce` on an
empty array with no initial value. -/
def reduceEmptyMsg : String := "Reduce of empty array with no initial value"

/-- `Array.prototype.reduce(f)` with no initial value: raises a `TypeError` on
the empty array, otherwise folds `f` over the tail starting from the head. -/
def jsReduce {α : Type} (f : α → α → α) : List α → Except CoreError α
  | [] => .error (.typeError reduceEmptyMsg)
  | x :: xs => .ok (xs.foldl f x)

/-- JavaScript array indexing `l[k]`: `undefined` (here `none`) when the index
is out of range. -/
def jsIndex {α : Type} : List α → ℕ → Option α
  | [], _ => none
  | x :: _, 0 => some x
  | _ :: l, n + 1 => jsIndex l n

/-- `Math.atan2 y x`, the angle of the point `(x, y)`, modelled as the argument
of the complex number `x + y i` (both have range `(-π, π]` and agree
everywhere, including `atan2 0 0 = 0 = arg 0`). -/
noncomputable def jsAtan2 (y x : ℝ) : ℝ := Complex.arg ⟨x, y⟩

/-- `Math.round x = ⌊x + 0.5⌋` (round half up). -/
noncomputable def jsRound (x : ℝ) : ℤ := ⌊x + 0.5⌋

/-- `calculateDistance(loc1, loc2)`: haversine great-circle distance with
Earth radius 6371 km, transcribed from the source. -/
noncomputable def calculateDistance (loc1 loc2 : Location) : ℝ :=
  let R : ℝ := 6371
  let dLat : ℝ := (loc2.lat - loc1.lat) * Real.pi / 180
  let dLon : ℝ := (loc2.lon - loc1.lon) * Real.pi / 180
  let a : ℝ := Real.sin (dLat / 2) * Real.sin (dLat / 2) +
    Real.cos (loc1.lat * Real.pi / 180) * Real.cos (loc2.lat * Real.pi / 180) *
    Real.sin (dLon / 2) * Real.sin (dLon / 2)
  let c : ℝ := 2 * jsAtan2 (Real.sqrt a) (Real.sqrt (1 - a))
  R * c

lemma jsAtan2_zero_one : jsAtan2 0 1 = 0 := by
  have h : (⟨1, 0⟩ : Complex) = 1 := by
    apply Complex.ext <;> simp
  simp only [jsAtan2, h, Complex.arg_one]

/-- The haversine bracket is invariant under swapping the two coordinates. -/
lemma haversine_bracket_comm (u₁ v₁ u₂ v₂ : ℝ) :
    Real.sin ((u₂ - u₁) * Real.pi / 180 / 2) * Real.sin ((u₂ - u₁) * Real.pi / 180 / 2) +
      Real.cos (u₁ * Real.pi / 180) * Real.cos (u₂ * Real.pi / 180) *
      Real.sin ((v₂ - v₁) * Real.pi / 180 / 2) * Real.sin ((v₂ - v₁) * Real.pi / 180 / 2) =
    Real.sin ((u₁ - u₂) * Real.pi / 180 / 2) * Real.sin ((u₁ - u₂) * Real.pi / 180 / 2) +
      Real.cos (u₂ * Real.pi / 180) * Real.cos (u₁ * Real.pi / 180) *
      Real.sin ((v₁ - v₂) * Real.pi / 180 / 2) * Real.sin ((v₁ - v₂) * Real.pi / 180 / 2) := by
  have e₁ : (u₂ - u₁) * Real.pi / 180 / 2 = -((u₁ - u₂) * Real.pi / 180 / 2) := by ring
  have e₂ : (v₂ - v₁) * Real.pi / 180 / 2 = -((v₁ - v₂) * Real.pi / 180 / 2) := by ring
  rw [e₁, e₂]
  simp only [Real.sin_neg]
  ring

lemma calculateDistance_comm (loc1 loc2 : Location) :
    calculateDistance loc1 loc2 = calculateDistance loc2 loc1 := by
  simp only [calculateDistance]
  rw [haversine_bracket_comm loc1.lat loc1.lon loc2.lat loc2.lon]

lemma calculateDistance_self (loc : Location) : calculateDistance loc loc = 0 := by
  simp only [calculateDistance, sub_self, zero_mul, zero_div, Real.sin_zero, mul_zero,
    zero_add, add_zero, Real.sqrt_zero, sub_zero, Real.sqrt_one, jsAtan2_zero_one]

/-- `calculateDistance(location, { lat: s.stop_lat, lon: s.stop_lon })`, the
distance from the query point to a stop, as computed inside `findNearestStop`. -/
noncomputable def stopDist (location : Location) (s : Stop) : ℝ :=
  calculateDistance location ⟨s.stop_lat, s.stop_lon⟩

/-- The reduction callback of `findNearestStop`: keep `nearest` unless `s` is
strictly closer to the query point. -/
noncomputable def nearerBy (d : Stop → ℝ) (nearest s : Stop) : Stop :=
  if d s < d nearest then s else nearest

/-- `findNearestStop(location)`: `stops.reduce(...)` with no initial value,
parameterized by the stop collection.  On an empty collection the reduce
primitive raises a `TypeError`. -/
noncomputable def findNearestStop (stops : List Stop) (location : Location) :
    Except CoreError Stop :=
  jsReduce (nearerBy (stopDist location)) stops

/-- The result of folding `nearerBy d` is the first minimum of `acc :: xs`:
the list splits around the result, everything strictly before it is strictly
farther, and everything after it is at least as far. -/
lemma foldl_nearerBy_firstMin (d : Stop → ℝ) (xs : List Stop) :
    ∀ acc : Stop, ∃ l₁ l₂ : List Stop,
      acc :: xs = l₁ ++ xs.foldl (nearerBy d) acc :: l₂ ∧
      (∀ t ∈ l₁, d (xs.foldl (nearerBy d) acc) < d t) ∧
      (∀ t ∈ l₂, d (xs.foldl (nearerBy d) acc) ≤ d t) := by
  induction xs with
  | nil =>
    intro acc
    exact ⟨[], [], rfl, by intro t ht; simp at ht, by intro t ht; simp at ht⟩
  | cons x xs ih =>
    intro acc
    rw [List.foldl_cons]
    by_cases h : d x < d acc
    · have hx : nearerBy d acc x = x := if_pos h
      rw [hx]
      obtain ⟨l₁, l₂, heq, h₁, h₂⟩ := ih x
      refine ⟨acc :: l₁, l₂, by rw [List.cons_append, ← heq], ?_, h₂⟩
      intro t ht
      rcases List.mem_cons.mp ht with hteq | ht2
      · subst hteq
        have hrx : d (xs.foldl (nearerBy d) x) ≤ d x := by
          cases l₁ with
          | nil =>
            have hhead : x = xs.foldl (nearerBy d) x := by
              have := congrArg List.head? heq
              simpa using this
            rw [← hhead]
          | cons y l₁ =>
            have hy : y = x := by
              have := congrArg List.head? heq
              simpa using this.symm
            exact le_of_lt (h₁ x (by rw [← hy]; exact List.mem_cons_self y l₁))
        linarith
      · exact h₁ t ht2
    · have hx : nearerBy d acc x = acc := if_neg h
      have hax : d acc ≤ d x := le_of_not_lt h
      rw [hx]
      obtain ⟨l₁, l₂, heq, h₁, h₂⟩ := ih acc
      cases l₁ with
      | nil =>
        simp only [List.nil_append] at heq
        have hacc : acc = xs.foldl (nearerBy d) acc := by
          have := congrArg List.head? heq
          simpa using this
        have hxs : xs = l₂ := by
          have := congrArg List.tail heq
          simpa using this
        refine ⟨[], x :: xs, by rw [← hacc]; rfl, by intro t ht; simp at ht, ?_⟩
        intro t ht
        rcases List.mem_cons.mp ht with hteq | ht2
        · subst hteq; rw [← hacc]; exact hax
        · rw [hxs] at ht2; exact h₂ t ht2
      | cons y l₁ =>
        have hy : acc = y := by
          have := congrArg List.head? heq
          simpa using this
        have hxs : xs = l₁ ++ xs.foldl (nearerBy d) acc :: l₂ := by
          have := congrArg List.tail heq
          simpa using this
        refine ⟨acc :: x :: l₁, l₂, ?_, ?_, h₂⟩
        · rw [List.cons_append, List.cons_append, ← hxs]
        · intro t ht
          have hracc : d (xs.foldl (nearerBy d) acc) < d acc := by
            have := h₁ y (List.mem_cons_self y l₁)
            rwa [← hy] at this
          rcases List.mem_cons.mp ht with hteq | ht2
          · subst hteq; exact hracc
          · rcases List.mem_cons.mp ht2 with hteq2 | ht3
            · subst hteq2; exact lt_of_lt_of_le hracc hax
            · exact h₁ t (List.mem_cons_of_mem y ht3)

/-- The `RouteRecommendation` interface.  In the source the `route` field is
typed `Route`, but at runtime `routes[k]` is `undefined` when the route
collection is empty, so the runtime value is modelled as `Option Route`. -/
structure RouteRecommendation where
  route : Option Route
  startStop : Stop
  endStop : Stop
  estimatedDuration : ℤ

/-- `recommendRoute(start, end)`, parameterized by the route and stop
collections and by the random index `k = Math.floor(Math.random() *
routes.length)` (any natural number; the real draw lands in
`[0, routes.length)` when `routes` is non-empty and is `0` otherwise).
Exceptions from `findNearestStop` propagate. -/
noncomputable def recommendRoute (routes : List Route) (stops : List Stop) (k : ℕ)
    (start finish : Location) : Except CoreError RouteRecommendation :=
  match findNearestStop stops start with
  | .error e => .error e
  | .ok startStop =>
    match findNearestStop stops finish with
    | .error e => .error e
    | .ok endStop =>
      .ok ⟨jsIndex routes k, startStop, endStop,
        jsRound (calculateDistance start finish / 30 * 60)⟩

lemma jsIndex_lt_length {α : Type} :
    ∀ {l : List α} {k : ℕ}, k < l.length → ∃ x, jsIndex l k = some x ∧ x ∈ l := by
  intro l
  induction l with
  | nil => intro k hk; simp at hk
  | cons x l ih =>
    intro k hk
    cases k with
    | zero => exact ⟨x, rfl, List.mem_cons_self x l⟩
    | succ n =>
      obtain ⟨y, hy, hmem⟩ := ih (Nat.lt_of_succ_lt_succ hk)
      exact ⟨y, hy, List.mem_cons_of_mem x hmem⟩

/-- One iteration of the `routes.forEach` body in the `/api/bus-locations`
handler, for a single route: `cur` is the current entry for the route's id
(`none` when uninitialized), `stopIdx` the random stop index, `rLat`/`rLon`
the two `Math.random()` draws used for the jitter.  When the stop collection
is empty the random index misses and reading `stop_lat` of `undefined` raises
a `TypeError`. -/
noncomputable def pollStep (stops : List Stop) (cur : Option Location) (stopIdx : ℕ)
    (rLat rLon : ℝ) : Except CoreError Location :=
  match cur with
  | none =>
    match jsIndex stops stopIdx with
    | some s => .ok ⟨s.stop_lat, s.stop_lon⟩
    | none => .error (.typeError "Cannot read properties of undefined")
  | some loc => .ok ⟨loc.lat + (rLat - 0.5) * 0.001, loc.lon + (rLon - 0.5) * 0.001⟩

/-- The whole `/api/bus-locations` handler: iterate `pollStep` over the route
catalog, updating the `busLocations` map (modelled as a function from route
ids to optional locations).  `rand i` packages the random draws consumed for
the `i`-th route; an exception aborts the iteration and propagates. -/
noncomputable def pollAll (stops : List Stop) :
    List Route → (ℕ → ℕ × ℝ × ℝ) → ℕ → (String → Option Location) →
    Except CoreError (String → Option Location)
  | [], _, _, st => .ok st
  | r :: rs, rand, i, st =>
    match pollStep stops (st r.route_id) (rand i).1 (rand i).2.1 (rand i).2.2 with
    | .error e => .error e
    | .ok loc => pollAll stops rs rand (i + 1)
        (fun id => if id = r.route_id then some loc else st id)

/-- The `/api/reports` handler body: keep only the reports strictly younger
than one hour (3600000 ms) at query time, in stored order. -/
def recentReports (now : ℤ) (reports : List Report) : List Report :=
  reports.filter (fun report => now - report.timestamp < 3600000)

/-- The `/api/report` handler body (present in the source as commented-out
code; the demo block performs the same store operation inline): build a report
from the submitted fields with a fresh id and the current time, push it onto
the store, and return it.  No runtime validation of `type` is performed. -/
def submitReport (store : List Report) (freshId : String) (now : ℤ) (type : String)
    (location : Location) (description : String) : Except CoreError (Report × List Report) :=
  let newReport : Report := ⟨freshId, type, location, description, now⟩
  .ok (newReport, store ++ [newReport])

/-- A concrete stop (used to instantiate theorems with hypotheses). -/
def stopA : Stop := ⟨"3a7a", "Kwa Rwahama", 0, 0⟩

/-- A concrete route (used to instantiate theorems with hypotheses). -/
def routeA : Route := ⟨"419", "419", "Nyabugogo-Cyumbati", "e92121"⟩

/-- A concrete query point. -/
def locP : Location := ⟨0, 0⟩

/-- A second concrete query point. -/
def locQ : Location := ⟨1, 1⟩

/-- Discriminator for the specification's `EmptyIndex` error value. -/
def isEmptyIndexError {α : Type} : Except CoreError α → Bool
  | .error .emptyIndex => true
  | _ => false

/-- Claim C1: on a non-empty stop collection `findNearestStop` returns a stop
of the collection; the collection splits around the returned stop so that
every stop strictly before it is strictly farther from the query point and
every other stop is at least as far, i.e. the result is the first stop in
collection order attaining the minimum haversine distance. -/
theorem findNearestStop_firstMin (stops : List Stop) (location : Location)
    (h : stops ≠ []) :
    ∃ s l₁ l₂, findNearestStop stops location = .ok s ∧
      stops = l₁ ++ s :: l₂ ∧ s ∈ stops ∧
      (∀ t ∈ stops, stopDist location s ≤ stopDist location t) ∧
      (∀ t ∈ l₁, stopDist location s < stopDist location t) := by
  cases stops with
  | nil => exact absurd rfl h
  | cons x xs =>
    obtain ⟨l₁, l₂, heq, h₁, h₂⟩ := foldl_nearerBy_firstMin (stopDist location) xs x
    refine ⟨xs.foldl (nearerBy (stopDist location)) x, l₁, l₂, rfl, heq, ?_, ?_, h₁⟩
    · rw [heq]
      exact List.mem_append_right l₁ (List.mem_cons_self _ l₂)
    · intro t ht
      rw [heq] at ht
      rcases List.mem_append.mp ht with h3 | h4
      · exact le_of_lt (h₁ t h3)
      · rcases List.mem_cons.mp h4 with h5 | h6
        · subst h5; exact le_refl _
        · exact h₂ t h6

/-- Witness for claim C1 at a concrete collection and query point. -/
theorem findNearestStop_firstMin_witness :
    ∃ s l₁ l₂, findNearestStop [stopA] locP = .ok s ∧
      [stopA] = l₁ ++ s :: l₂ ∧ s ∈ [stopA] ∧
      (∀ t ∈ [stopA], stopDist locP s ≤ stopDist locP t) ∧
      (∀ t ∈ l₁, stopDist locP s < stopDist locP t) :=
  findNearestStop_firstMin [stopA] locP (by simp)

/-- Claim C2, counterexample: on the empty stop collection `findNearestStop`
fails with the `TypeError` raised by the unguarded `reduce`, which is not the
specification's `EmptyIndex` error value. -/
theorem findNearestStop_empty_counterexample :
    findNearestStop [] locP = .error (CoreError.typeError reduceEmptyMsg) ∧
    isEmptyIndexError (findNearestStop [] locP) = false :=
  ⟨rfl, rfl⟩

/-- Claim C2 (amended): on the empty stop collection `findNearestStop` always
fails — it never returns a (fabricated) stop — but the failure is the
`TypeError` raised by `reduce` on an empty array with no initial value; there
is no explicit guard and no distinguishable `EmptyIndex` error value. -/
theorem findNearestStop_empty_typeError (location : Location) :
    findNearestStop [] location = .error (CoreError.typeError reduceEmptyMsg) := rfl

/-- Claim C5: `calculateDistance` is symmetric in its two arguments, and the
distance from any coordinate to itself is zero. -/
theorem calculateDistance_symm_zero (a b : Location) :
    calculateDistance a b = calculateDistance b a ∧ calculateDistance a a = 0 :=
  ⟨calculateDistance_comm a b, calculateDistance_self a⟩

/-- Claim C3, counterexample: with an empty route collection (and a non-empty
stop collection) `recommendRoute` does not fail at all — it returns a
recommendation whose `route` field is `undefined` (`none`), silently
defaulting instead of failing with `EmptyCatalog`. -/
theorem recommendRoute_emptyCatalog_counterexample :
    ∃ r, recommendRoute ([] : List Route) [stopA] 0 locP locQ = .ok r ∧
      r.route = none :=
  ⟨⟨none, stopA, stopA, jsRound (calculateDistance locP locQ / 30 * 60)⟩, rfl, rfl⟩

/-- Claim C3 (amended): `recommendRoute` fails exactly when the stop
collection is empty, and then with the `TypeError` propagated from the
unguarded `reduce` in `findNearestStop` (not `EmptyIndex`); with a non-empty
stop collection it always succeeds — in particular an empty route collection
does not produce `EmptyCatalog` but a recommendation whose `route` field is
`undefined` (`jsIndex routes k = none`). -/
theorem recommendRoute_error_behavior (routes : List Route) (stops : List Stop)
    (k : ℕ) (a b : Location) :
    (stops = [] →
      recommendRoute routes stops k a b = .error (.typeError reduceEmptyMsg)) ∧
    (stops ≠ [] →
      ∃ r, recommendRoute routes stops k a b = .ok r ∧ r.route = jsIndex routes k) := by
  cases stops with
  | nil => exact ⟨fun _ => rfl, fun hne => absurd rfl hne⟩
  | cons x xs =>
    exact ⟨fun hc => List.noConfusion hc, fun _ =>
      ⟨⟨jsIndex routes k, xs.foldl (nearerBy (stopDist a)) x,
        xs.foldl (nearerBy (stopDist b)) x,
        jsRound (calculateDistance a b / 30 * 60)⟩, rfl, rfl⟩⟩

/-- Witness for claim C3 (amended), both branches at concrete inputs. -/
theorem recommendRoute_error_behavior_witness :
    (∃ r, recommendRoute ([] : List Route) [stopA] 0 locP locQ = .ok r ∧
      r.route = jsIndex [] 0) ∧
    recommendRoute [routeA] [] 0 locP locQ = .error (.typeError reduceEmptyMsg) :=
  ⟨(recommendRoute_error_behavior [] [stopA] 0 locP locQ).2 (by simp),
   (recommendRoute_error_behavior [routeA] [] 0 locP locQ).1 rfl⟩

/-- Claim C4: the `estimatedDuration` of any recommendation produced by
`recommendRoute` is `round(calculateDistance(start, end) / 30 * 60)`, and when
the start and end coordinates coincide it is `0`. -/
theorem recommendRoute_estimatedDuration (routes : List Route) (stops : List Stop)
    (k : ℕ) (a b : Location) (r : RouteRecommendation)
    (h : recommendRoute routes stops k a b = .ok r) :
    r.estimatedDuration = round (calculateDistance a b / 30 * 60) ∧
    (a = b → r.estimatedDuration = 0) := by
  cases hfa : findNearestStop stops a with
  | error e => simp [recommendRoute, hfa] at h
  | ok sA =>
    cases hfb : findNearestStop stops b with
    | error e => simp [recommendRoute, hfa, hfb] at h
    | ok sB =>
      simp only [recommendRoute, hfa, hfb, Except.ok.injEq] at h
      subst h
      have hround : ∀ x : ℝ, jsRound x = round x := by
        intro x
        have h05 : (0.5 : ℝ) = 1 / 2 := by norm_num
        rw [jsRound, h05, round_eq]
      constructor
      · show jsRound (calculateDistance a b / 30 * 60) =
          round (calculateDistance a b / 30 * 60)
        exact hround _
      · intro hab
        subst hab
        show jsRound (calculateDistance a a / 30 * 60) = 0
        rw [calculateDistance_self, zero_div, zero_mul, hround, round_zero]

/-- The concrete recommendation returned for equal start and end points (used
by the witness for claim C4). -/
noncomputable def recPP : RouteRecommendation :=
  ⟨jsIndex [routeA] 0, stopA, stopA, jsRound (calculateDistance locP locP / 30 * 60)⟩

/-- Witness for claim C4 at equal start and end coordinates. -/
theorem recommendRoute_estimatedDuration_witness :
    ∃ r, recommendRoute [routeA] [stopA] 0 locP locP = .ok r ∧
      r.estimatedDuration = 0 :=
  ⟨recPP, rfl,
    (recommendRoute_estimatedDuration [routeA] [stopA] 0 locP locP recPP rfl).2 rfl⟩

/-- Claim C10: the nearest-stop fields of a recommendation do not depend on the
random route selection: two successful runs on the same coordinates with
different selector draws `k₁`, `k₂` agree on `startStop`, `endStop` and
`estimatedDuration`, and those stops are exactly the (deterministic)
`findNearestStop` results for the two query points. -/
theorem recommendRoute_selector_independent (routes : List Route) (stops : List Stop)
    (k₁ k₂ : ℕ) (a b : Location) (r₁ r₂ : RouteRecommendation)
    (h₁ : recommendRoute routes stops k₁ a b = .ok r₁)
    (h₂ : recommendRoute routes stops k₂ a b = .ok r₂) :
    r₁.startStop = r₂.startStop ∧ r₁.endStop = r₂.endStop ∧
    findNearestStop stops a = .ok r₁.startStop ∧
    findNearestStop stops b = .ok r₁.endStop ∧
    r₁.estimatedDuration = r₂.estimatedDuration := by
  cases hfa : findNearestStop stops a with
  | error e => simp [recommendRoute, hfa] at h₁
  | ok sA =>
    cases hfb : findNearestStop stops b with
    | error e => simp [recommendRoute, hfa, hfb] at h₁
    | ok sB =>
      simp only [recommendRoute, hfa, hfb, Except.ok.injEq] at h₁ h₂
      subst h₁
      subst h₂
      exact ⟨rfl, rfl, rfl, rfl, rfl⟩

/-- The recommendation produced with selector draw `0` (witness for C10). -/
noncomputable def recK0 : RouteRecommendation :=
  ⟨jsIndex [routeA] 0, stopA, stopA, jsRound (calculateDistance locP locQ / 30 * 60)⟩

/-- The recommendation produced with selector draw `1` (witness for C10). -/
noncomputable def recK1 : RouteRecommendation :=
  ⟨jsIndex [routeA] 1, stopA, stopA, jsRound (calculateDistance locP locQ / 30 * 60)⟩

/-- Witness for claim C10: two concrete runs with different selector draws. -/
theorem recommendRoute_selector_independent_witness :
    recK0.startStop = recK1.startStop ∧ recK0.endStop = recK1.endStop ∧
    findNearestStop [stopA] locP = .ok recK0.startStop ∧
    findNearestStop [stopA] locQ = .ok recK0.endStop ∧
    recK0.estimatedDuration = recK1.estimatedDuration :=
  recommendRoute_selector_independent [routeA] [stopA] 0 1 locP locQ recK0 recK1 rfl rfl

/-- Claim C6: the first poll on an uninitialized route (no map entry, provided
the random stop index is in range, as it always is for a non-empty stop
collection) returns the exact coordinate of some stop of the collection and
creates the entry; a poll on a tracked route (entry present, with the two
`Math.random()` draws in `[0, 1)`) returns a new position whose latitude and
longitude each moved by at most `0.0005` degrees in absolute value. -/
theorem pollStep_spec (stops : List Stop) (stopIdx : ℕ) (rLat rLon : ℝ) :
    (stopIdx < stops.length →
      ∃ s, s ∈ stops ∧
        pollStep stops none stopIdx rLat rLon = .ok ⟨s.stop_lat, s.stop_lon⟩) ∧
    (∀ loc : Location, 0 ≤ rLat → rLat < 1 → 0 ≤ rLon → rLon < 1 →
      ∃ loc2, pollStep stops (some loc) stopIdx rLat rLon = .ok loc2 ∧
        |loc2.lat - loc.lat| ≤ 0.0005 ∧ |loc2.lon - loc.lon| ≤ 0.0005) := by
  constructor
  · intro hlt
    obtain ⟨s, hs, hmem⟩ := jsIndex_lt_length hlt
    exact ⟨s, hmem, by simp [pollStep, hs]⟩
  · intro loc h1 h2 h3 h4
    refine ⟨⟨loc.lat + (rLat - 0.5) * 0.001, loc.lon + (rLon - 0.5) * 0.001⟩, rfl, ?_, ?_⟩
    · show |loc.lat + (rLat - 0.5) * 0.001 - loc.lat| ≤ 0.0005
      have he : loc.lat + (rLat - 0.5) * 0.001 - loc.lat = (rLat - 0.5) * 0.001 := by
        ring
      rw [he, abs_le]
      constructor <;> nlinarith
    · show |loc.lon + (rLon - 0.5) * 0.001 - loc.lon| ≤ 0.0005
      have he : loc.lon + (rLon - 0.5) * 0.001 - loc.lon = (rLon - 0.5) * 0.001 := by
        ring
      rw [he, abs_le]
      constructor <;> nlinarith

/-- Witness for claim C6: both branches at concrete inputs. -/
theorem pollStep_spec_witness :
    (∃ s, s ∈ [stopA] ∧
      pollStep [stopA] none 0 0 0 = .ok ⟨s.stop_lat, s.stop_lon⟩) ∧
    (∃ loc2, pollStep [stopA] (some locP) 0 0 0 = .ok loc2 ∧
      |loc2.lat - locP.lat| ≤ 0.0005 ∧ |loc2.lon - locP.lon| ≤ 0.0005) :=
  ⟨(pollStep_spec [stopA] 0 0 0).1 Nat.zero_lt_one,
   (pollStep_spec [stopA] 0 0 0).2 locP (le_refl 0) zero_lt_one (le_refl 0) zero_lt_one⟩

/-- Claim C7: provided every random stop index is in range (as it always is
for a non-empty stop collection), the `/api/bus-locations` handler succeeds
and polls every route of the catalog: the key set of the resulting
`busLocations` map is exactly the catalog's route ids together with the keys
already present.  Starting from the empty map, and across any sequence of
invocations, the key set is therefore exactly the set of catalog route ids,
with one entry per route id (the map is keyed by route id). -/
theorem pollAll_domain (stops : List Stop) (rand : ℕ → ℕ × ℝ × ℝ)
    (hrand : ∀ j, (rand j).1 < stops.length) :
    ∀ (routes : List Route) (i : ℕ) (st : String → Option Location),
      ∃ st2, pollAll stops routes rand i st = .ok st2 ∧
        ∀ id, (st2 id).isSome = true ↔
          (id ∈ routes.map Route.route_id ∨ (st id).isSome = true) := by
  intro routes
  induction routes with
  | nil =>
    intro i st
    exact ⟨st, rfl, fun id => by simp⟩
  | cons r rs ih =>
    intro i st
    have hstep : ∃ loc,
        pollStep stops (st r.route_id) (rand i).1 (rand i).2.1 (rand i).2.2 = .ok loc := by
      cases hcur : st r.route_id with
      | none =>
        obtain ⟨s, hs, _⟩ := jsIndex_lt_length (hrand i)
        exact ⟨⟨s.stop_lat, s.stop_lon⟩, by simp [pollStep, hs]⟩
      | some loc => exact ⟨⟨loc.lat + ((rand i).2.1 - 0.5) * 0.001,
          loc.lon + ((rand i).2.2 - 0.5) * 0.001⟩, rfl⟩
    obtain ⟨loc, hloc⟩ := hstep
    obtain ⟨st2, hst2, hdom⟩ := ih (i + 1)
      (fun id => if id = r.route_id then some loc else st id)
    refine ⟨st2, ?_, ?_⟩
    · simp only [pollAll, hloc]
      exact hst2
    · intro id
      rw [hdom id]
      by_cases hid : id = r.route_id
      · subst hid
        simp
      · simp [hid]

/-- Witness for claim C7 at a concrete catalog, stop collection and random
stream, starting from the empty map. -/
theorem pollAll_domain_witness :
    ∃ st2, pollAll [stopA] [routeA] (fun _ => (0, 0, 0)) 0 (fun _ => none) = .ok st2 ∧
      ∀ id, (st2 id).isSome = true ↔
        (id ∈ [routeA].map Route.route_id ∨ (none : Option Location).isSome = true) :=
  pollAll_domain [stopA] (fun _ => (0, 0, 0)) (fun _ => Nat.zero_lt_one) [routeA] 0
    (fun _ => none)

/-- Claim C8: `recentReports` returns exactly the stored reports strictly
younger than one hour — membership is equivalent to being a stored report with
`now - createdAt < 3600000` — as a sublist of the store (insertion order
preserved, store untouched); a report aged exactly `3600001` ms is excluded
and one aged `3599999` ms is included. -/
theorem recentReports_spec (now : ℤ) (l : List Report) :
    (∀ r, r ∈ recentReports now l ↔ (r ∈ l ∧ now - r.timestamp < 3600000)) ∧
    (recentReports now l).Sublist l ∧
    (∀ r ∈ l, r.timestamp = now - 3600001 → r ∉ recentReports now l) ∧
    (∀ r ∈ l, r.timestamp = now - 3599999 → r ∈ recentReports now l) := by
  refine ⟨?_, List.filter_sublist l, ?_, ?_⟩
  · intro r
    simp [recentReports, List.mem_filter]
  · intro r hr ht hmem
    rw [recentReports, List.mem_filter] at hmem
    have h2 := hmem.2
    rw [ht] at h2
    simp only [decide_eq_true_eq] at h2
    omega
  · intro r hr ht
    rw [recentReports, List.mem_filter]
    refine ⟨hr, ?_⟩
    rw [ht]
    simp only [decide_eq_true_eq]
    omega

/-- A stored report exactly 3600001 ms old at query time 4000000 (for the C8
witness). -/
def reportOld : Report := ⟨"r1", "TRAFFIC", locP, "old", 399999⟩

/-- A stored report exactly 3599999 ms old at query time 4000000 (for the C8
witness). -/
def reportNew : Report := ⟨"r2", "ACCIDENT", locP, "new", 400001⟩

/-- Witness for claim C8: the 3599999 ms old report is included at a concrete
query time and store. -/
theorem recentReports_spec_witness :
    reportNew ∈ recentReports 4000000 [reportOld, reportNew] :=
  (recentReports_spec 4000000 [reportOld, reportNew]).2.2.2 reportNew (by simp)
    (by decide)

/-- The report stored for an out-of-enum kind (for the C9 counterexample). -/
def bogusReport : Report := ⟨"r1", "BOGUS", locP, "desc", 0⟩

/-- Claim C9, counterexample: submitting a report with kind `"BOGUS"` does not
fail with `InvalidKind` — it succeeds and the store grows by one report (the
bogus one), because no runtime validation of the kind exists. -/
theorem submitReport_bogus_counterexample :
    submitReport [] "r1" 0 "BOGUS" locP "desc" = .ok (bogusReport, [bogusReport]) ∧
    [bogusReport].length = ([] : List Report).length + 1 :=
  ⟨rfl, rfl⟩

/-- Claim C9 (amended): `submitReport` performs no validation of the kind: for
every kind string (valid or not) it succeeds, appending to the store — and
returning — a report carrying the fresh id, the submitted kind, position and
description, and the current time. -/
theorem submitReport_no_validation (store : List Report) (freshId : String) (now : ℤ)
    (type : String) (location : Location) (description : String) :
    ∃ r : Report, submitReport store freshId now type location description =
        .ok (r, store ++ [r]) ∧
      r.id = freshId ∧ r.type = type ∧ r.location = location ∧
      r.description = description ∧ r.timestamp = now :=
  ⟨⟨freshId, type, location, description, now⟩, rfl, rfl, rfl, rfl, rfl, rfl⟩


